import Mathlib

/-!
# Shallow embedding of `rag_app.py` (Enrical/rag_project)

This file embeds the state-and-persistence core of `src/rag_app.py`:
the flat-file user store (`load_user_data`, `save_user_data`,
`save_conversation`), registration and login (`register_user`,
`check_login`), conversation creation (the "Create Conversation" branch
of `main` / `chat_interface`), the prompt composer
(`RAGPipeline.create_system_prompt`), the chat client
(`RAGPipeline.generate_response`) and the chat send path of
`chat_interface`.

Modelling conventions:
* Python dicts are insertion-ordered; they are embedded as association
  lists (`List (String × _)`) with `dictGet?` (first match) and
  `dictSet` (replace in place if the key is present, else append),
  which is exactly Python's `d[k]` / `d[k] = v` on dicts whose keys
  are unique.
* The store file `user_data.json` is embedded as `StoreFile`:
  `missing` (no file on disk), `malformed` (contents that raise
  `json.JSONDecodeError`), or `valid d` (the JSON serialization of the
  user-data mapping `d`).  The JSON codec itself is made concrete
  further down (`Json`, `userDataToJson`, `jsonToUserData`) and proved
  to round-trip, which justifies collapsing a well-formed file to the
  mapping it denotes.
* The two remote HTTP APIs (retrieval and chat completion) are oracles:
  their answers (`chunks`, `apiResponse`) are inputs of the functions
  that consume them, matching the fact that the Python code treats the
  responses as opaque data.
* `bcrypt.hashpw` / `bcrypt.checkpw` are abstract parameters
  (`hashpw : String → String → String`, `checkpw : String → String → Bool`):
  every theorem below holds for an arbitrary hashing scheme, which is
  all the code relies on.
-/

/-- A chat message, Python `{"role": ..., "content": ...}`. -/
structure Message where
  role : String
  content : String
deriving Repr, DecidableEq

/-- Python dict of conversation name to message list
(`st.session_state.conversations`). -/
abbrev Conversations := List (String × List Message)

/-- One value of the `user_data.json` top-level mapping:
`{"password": ..., "conversations": {...}}`. -/
structure UserRec where
  password : String
  conversations : Conversations
deriving Repr, DecidableEq

/-- The top-level mapping of `user_data.json`: username to record. -/
abbrev UserData := List (String × UserRec)

/-- Python `d[k]` / `k in d` on an insertion-ordered dict: the first
binding of the key. -/
def dictGet? {α : Type} (k : String) : List (String × α) → Option α
  | [] => none
  | (k', v) :: t => if k' = k then some v else dictGet? k t

/-- Python `d[k] = v` on an insertion-ordered dict: replace the value of
the first binding in place, or append a new binding at the end. -/
def dictSet {α : Type} (k : String) (v : α) : List (String × α) → List (String × α)
  | [] => [(k, v)]
  | (k', v') :: t => if k' = k then (k', v) :: t else (k', v') :: dictSet k v t

/-- Python `s.strip()`: the string with leading and trailing whitespace
removed (only its emptiness is ever consumed by the code). -/
def pyStrip (s : String) : String :=
  ⟨((s.data.dropWhile Char.isWhitespace).reverse.dropWhile Char.isWhitespace).reverse⟩

/-- The contents of `user_data.json` as the program can observe them:
absent, unparseable, or the serialization of a user-data mapping. -/
inductive StoreFile where
  | missing
  | malformed
  | valid (d : UserData)
deriving Repr, DecidableEq

/-- Whether the file holds a well-formed JSON object (a successful
`json.load`). -/
def StoreFile.isValidJson : StoreFile → Bool
  | .valid _ => true
  | _ => false

/-- `save_user_data` (rag_app.py:40-49): `json.dump(user_data, file)` —
overwrites the file with the serialization of the mapping. -/
def save_user_data (user_data : UserData) : StoreFile :=
  .valid user_data

/-- `ensure_user_data_file` (rag_app.py:15-19): create the file with an
empty JSON object iff it does not exist. -/
def ensure_user_data_file : StoreFile → StoreFile
  | .missing => .valid []
  | f => f

/-- `load_user_data` (rag_app.py:22-37): returns the parsed mapping and
the file as left on disk.  On `JSONDecodeError` the file is reset to an
empty object and `{}` is returned; on `FileNotFoundError` the file is
created empty and `{}` is returned. -/
def load_user_data : StoreFile → UserData × StoreFile
  | .missing => ([], .valid [])
  | .malformed => ([], .valid [])
  | .valid d => (d, .valid d)

/-- `save_conversation` (rag_app.py:124-129): reload the store, and only
if the username is present, overwrite its `"conversations"` field and
save the whole mapping. -/
def save_conversation (username : String) (conversations : Conversations)
    (file : StoreFile) : StoreFile :=
  let p := load_user_data file
  let user_data := p.1
  match dictGet? username user_data with
  | some r => save_user_data (dictSet username { r with conversations := conversations } user_data)
  | none => p.2

/-- Outcome of `register_user`'s submit handler. -/
inductive RegisterResult where
  | ok
  | invalidInput
  | alreadyExists
deriving Repr, DecidableEq

/-- `register_user` (rag_app.py:96-121), submit branch.  `hashpw` and
`salt` stand for `bcrypt.hashpw` and the fresh `bcrypt.gensalt()`.
The handler first runs `ensure_user_data_file` and `load_user_data`,
rejects a blank username or password, rejects an existing username, and
otherwise stores `{"password": hash, "conversations": {}}` under the
username and saves the whole mapping. -/
def register_user (hashpw : String → String → String) (salt : String)
    (username password : String) (file : StoreFile) : RegisterResult × StoreFile :=
  let file₁ := ensure_user_data_file file
  let p := load_user_data file₁
  let user_data := p.1
  let file₂ := p.2
  if pyStrip username = "" ∨ pyStrip password = "" then
    (.invalidInput, file₂)
  else if (dictGet? username user_data).isSome then
    (.alreadyExists, file₂)
  else
    let hashed_password := hashpw password salt
    (.ok, save_user_data (dictSet username ⟨hashed_password, []⟩ user_data))

/-- Outcome of `check_login`'s login-button branch. -/
inductive LoginResult where
  | success
  | invalidCredentials
deriving Repr, DecidableEq

/-- `check_login` (rag_app.py:73-93), login-button branch.  `checkpw`
stands for `bcrypt.checkpw` applied to the submitted password and the
stored hash.  Succeeds iff `username in user_data` and the password
verifies; on success the session conversations become
`user_data[username].get("conversations", {})`; both failure paths show
the same "Invalid username or password." error. -/
def check_login (checkpw : String → String → Bool)
    (username password : String) (file : StoreFile) :
    LoginResult × Option Conversations × StoreFile :=
  let p := load_user_data file
  let user_data := p.1
  match dictGet? username user_data with
  | some r =>
    if checkpw password r.password then (.success, some r.conversations, p.2)
    else (.invalidCredentials, none, p.2)
  | none => (.invalidCredentials, none, p.2)

/-- Outcome of the "Create Conversation" button handler. -/
inductive CreateResult where
  | created
  | emptyName
deriving Repr, DecidableEq

/-- Session-and-file state produced by the conversation-creation
handler. -/
structure CreateOutcome where
  result : CreateResult
  conversations : Conversations
  current : Option String
  file : StoreFile
deriving Repr, DecidableEq

/-- The "Create Conversation" handler (rag_app.py:433-442, identically
rag_app.py:286-297): if the stripped name is non-empty it sets
`conversations[name] = []` (unconditionally — no duplicate check),
makes it current, and calls `save_conversation`; otherwise it reports
"Conversation name cannot be empty." and changes nothing. -/
def createConversation (username name : String)
    (convs : Conversations) (cur : Option String) (file : StoreFile) : CreateOutcome :=
  if pyStrip name ≠ "" then
    let convs' := dictSet name [] convs
    ⟨.created, convs', some name, save_conversation username convs' file⟩
  else
    ⟨.emptyName, convs, cur, file⟩

/-- The single-quote character (used by Python string `repr`). -/
def squoteChar : Char := Char.ofNat 39

/-- The double-quote character. -/
def dquoteChar : Char := Char.ofNat 34

/-- Python `repr` of one character of a string being quoted with `q`:
escape the backslash, the active quote and the common control
characters; other characters print themselves. -/
def pyReprChar (q c : Char) : String :=
  if c = Char.ofNat 92 then "\\\\"
  else if c = q then "\\" ++ q.toString
  else if c = Char.ofNat 10 then "\\n"
  else if c = Char.ofNat 13 then "\\r"
  else if c = Char.ofNat 9 then "\\t"
  else c.toString

/-- Python `repr` of a string: single-quoted, except double-quoted when
the string contains a single quote but no double quote. -/
def pyReprStr (s : String) : String :=
  let q : Char := if s.contains squoteChar && !(s.contains dquoteChar) then dquoteChar else squoteChar
  q.toString ++ String.join (s.toList.map (pyReprChar q)) ++ q.toString

/-- Python `str` of a list of strings, as produced by interpolating
`{chunk_texts}` in an f-string: `[` + comma-separated `repr`s + `]`. -/
def pyListRepr (xs : List String) : String :=
  "[" ++ String.intercalate ", " (xs.map pyReprStr) ++ "]"

/-- The part of the `create_system_prompt` template (rag_app.py:180-185)
before the `{chunk_texts}` interpolation point. -/
def promptPrefix : String :=
  "Este asistente, Enrique, es el asistente interno de la Gestoría Mays para el puesto de gerente de la Gestoría.\n        /\n        Personalidad:\n        Estructurado, con capacidad para manejar sistemas y herramientas administrativas, y con una actitud proactiva hacia la mejora de procesos. A la vez, demuestra una cierta flexibilidad y empatía en la gestión del equipo, asegurándose de que haya consenso y evitando conflictos innecesarios.\n        /\n        Objetivo: Responder preguntas sobre los documentos a los que tengo acceso de manera precisa y explicando con cercanía y familiaridad. No cites directamente el texto de los documentos, interpretalo y da tu respuesta"

/-- The part of the `create_system_prompt` template (rag_app.py:185-187)
after the `{chunk_texts}` interpolation point.  The closing `"""` of the
Python triple-quoted string consumes the quote after `pronto.`, so the
template ends with the bare period. -/
def promptSuffix : String :=
  ".\n        /\n        Para cualquier otra pregunta responde: \"Todavía no tengo ese conocimiento, pero seguiré aprendiendo para poder ser de más ayuda pronto."

/-- The fixed deflection sentence the template instructs the model to
answer with for out-of-scope questions. -/
def deflectionString : String :=
  "Todavía no tengo ese conocimiento, pero seguiré aprendiendo para poder ser de más ayuda pronto."

/-- `RAGPipeline.create_system_prompt` (rag_app.py:179-187): the fixed
persona/policy f-string with `{chunk_texts}` interpolated (Python
renders the list via `str`). -/
def create_system_prompt (chunk_texts : List String) : String :=
  promptPrefix ++ pyListRepr chunk_texts ++ promptSuffix

/-- What `RAGPipeline.generate_response` (rag_app.py:189-222) sends and
leaves behind.  `historyAfter` is the content of the caller's
`conversation_history` list after the call returns. -/
structure GenResult where
  systemSent : String
  messagesSent : List Message
  historyAfter : List Message
  response : String
deriving Repr, DecidableEq

/-- `RAGPipeline.generate_response` (rag_app.py:189-222).  A `None`
history defaults to `[]`; `messages = conversation_history + [...]`
builds a NEW list (Python `+` on lists), and no statement of the method
mutates `conversation_history`, so the caller's list is unchanged
(`historyAfter`).  The remote call is the oracle `apiResponse`
(the extracted `response.content`). -/
def generate_response (system_prompt query : String)
    (conversation_history : Option (List Message)) (apiResponse : String) : GenResult :=
  let ch := conversation_history.getD []
  let messages := ch ++ [⟨"user", query⟩]
  { systemSent := system_prompt
    messagesSent := messages
    historyAfter := ch
    response := apiResponse }

/-- Observable result of one run of the chat send path: the session
conversations, the store file, the system prompt composed by
`create_system_prompt` (if it was invoked) and the message list handed
to the chat API by `generate_response` (if it was invoked). -/
structure ChatOutcome where
  conversations : Conversations
  file : StoreFile
  promptComposed : Option String
  apiMessagesSent : Option (List Message)
deriving Repr, DecidableEq

set_option linter.unusedVariables false in
/-- The submit branch of `chat_interface` (rag_app.py:336-375).
`current_history = conversations[cur]` aliases the dict entry (a
`KeyError`, i.e. `none`, if absent); a blank query only shows an error;
otherwise the user message is appended, `retrieve_chunks` answers
`chunks` (oracle), and if `chunks` is non-empty the prompt is composed
and `generate_response` called with the already-extended history, else
the fixed fallback string is used; the assistant message is appended.
No statement of this branch calls `save_conversation`, so the file is
returned untouched.  `username` is the logged-in user; the branch never
uses it. -/
def send_message (username query cur : String) (convs : Conversations)
    (file : StoreFile) (chunks : List String) (apiResponse : String) : Option ChatOutcome :=
  match dictGet? cur convs with
  | none => none
  | some current_history =>
    if pyStrip query = "" then
      some ⟨convs, file, none, none⟩
    else
      let h₁ := current_history ++ [⟨"user", query⟩]
      if !chunks.isEmpty then
        let system_prompt := create_system_prompt chunks
        let g := generate_response system_prompt query (some h₁) apiResponse
        let h₂ := h₁ ++ [⟨"assistant", g.response⟩]
        some ⟨dictSet cur h₂ convs, file, some system_prompt, some g.messagesSent⟩
      else
        let response := "No relevant information found."
        let h₂ := h₁ ++ [⟨"assistant", response⟩]
        some ⟨dictSet cur h₂ convs, file, none, none⟩

/-- The JSON value grammar that `json.dump` / `json.load` exchange for
this program (the subset actually produced by its dictionaries). -/
inductive Json where
  | null
  | bool (b : Bool)
  | num (n : Int)
  | str (s : String)
  | arr (elems : List Json)
  | obj (fields : List (String × Json))

/-- Serialization of one message dict. -/
def messageToJson (m : Message) : Json :=
  .obj [("role", .str m.role), ("content", .str m.content)]

/-- Deserialization of one message dict. -/
def jsonToMessage : Json → Option Message
  | .obj [("role", .str r), ("content", .str c)] => some ⟨r, c⟩
  | _ => none

/-- Deserialization of a message array. -/
def jsonListToMessages : List Json → Option (List Message)
  | [] => some []
  | j :: js =>
    match jsonToMessage j, jsonListToMessages js with
    | some m, some ms => some (m :: ms)
    | _, _ => none

/-- Serialization of the conversations dict. -/
def conversationsToJson (cs : Conversations) : Json :=
  .obj (cs.map fun p => (p.1, .arr (p.2.map messageToJson)))

/-- Deserialization of the conversations dict fields. -/
def jsonFieldsToConversations : List (String × Json) → Option Conversations
  | [] => some []
  | (n, .arr js) :: t =>
    match jsonListToMessages js, jsonFieldsToConversations t with
    | some ms, some cs => some ((n, ms) :: cs)
    | _, _ => none
  | _ => none

/-- Deserialization of the conversations dict. -/
def jsonToConversations : Json → Option Conversations
  | .obj fields => jsonFieldsToConversations fields
  | _ => none

/-- Serialization of one user record. -/
def userRecToJson (r : UserRec) : Json :=
  .obj [("password", .str r.password), ("conversations", conversationsToJson r.conversations)]

/-- Deserialization of one user record. -/
def jsonToUserRec : Json → Option UserRec
  | .obj [("password", .str pw), ("conversations", c)] =>
    (jsonToConversations c).map fun cs => ⟨pw, cs⟩
  | _ => none

/-- Serialization of the whole `user_data.json` object,
as `json.dump` writes it. -/
def userDataToJson (d : UserData) : Json :=
  .obj (d.map fun p => (p.1, userRecToJson p.2))

/-- Deserialization of the top-level object fields. -/
def jsonFieldsToUserData : List (String × Json) → Option UserData
  | [] => some []
  | (u, j) :: t =>
    match jsonToUserRec j, jsonFieldsToUserData t with
    | some r, some d => some ((u, r) :: d)
    | _, _ => none

/-- Deserialization of the whole `user_data.json` object,
as `json.load` reads it back. -/
def jsonToUserData : Json → Option UserData
  | .obj fields => jsonFieldsToUserData fields
  | _ => none

/-! ## Supporting lemmas -/

@[simp] theorem dictGet?_nil {α : Type} (k : String) :
    dictGet? (α := α) k [] = none := rfl

@[simp] theorem dictGet?_cons {α : Type} (k k' : String) (v : α) (t : List (String × α)) :
    dictGet? k ((k', v) :: t) = if k' = k then some v else dictGet? k t := rfl

theorem dictGet?_dictSet_self {α : Type} (k : String) (v : α) :
    ∀ d : List (String × α), dictGet? k (dictSet k v d) = some v := by
  intro d
  induction d with
  | nil => simp [dictSet]
  | cons h t ih =>
    obtain ⟨k', v'⟩ := h
    by_cases hk : k' = k
    · simp [dictSet, hk]
    · simp [dictSet, hk, ih]

theorem dictGet?_dictSet_other {α : Type} (k k₀ : String) (v : α) (hne : k₀ ≠ k) :
    ∀ d : List (String × α), dictGet? k (dictSet k₀ v d) = dictGet? k d := by
  intro d
  induction d with
  | nil => simp [dictSet, hne]
  | cons h t ih =>
    obtain ⟨k', v'⟩ := h
    by_cases hk : k' = k₀
    · subst hk
      simp [dictSet, hne]
    · simp [dictSet, hk, ih]

theorem jsonToMessage_messageToJson (m : Message) :
    jsonToMessage (messageToJson m) = some m := by
  cases m
  rfl

theorem jsonListToMessages_map (ms : List Message) :
    jsonListToMessages (ms.map messageToJson) = some ms := by
  induction ms with
  | nil => rfl
  | cons m t ih => simp [jsonListToMessages, jsonToMessage_messageToJson, ih]

theorem jsonToConversations_conversationsToJson (cs : Conversations) :
    jsonToConversations (conversationsToJson cs) = some cs := by
  suffices h : jsonFieldsToConversations
      (cs.map fun p => (p.1, .arr (p.2.map messageToJson))) = some cs by
    simpa [jsonToConversations, conversationsToJson] using h
  induction cs with
  | nil => rfl
  | cons p t ih =>
    obtain ⟨n, ms⟩ := p
    simp [jsonFieldsToConversations, jsonListToMessages_map, ih]

theorem jsonToUserRec_userRecToJson (r : UserRec) :
    jsonToUserRec (userRecToJson r) = some r := by
  obtain ⟨pw, cs⟩ := r
  simp [userRecToJson, jsonToUserRec, jsonToConversations_conversationsToJson]

/-- `json.load` inverts `json.dump` on every user-data mapping: the
identification of a well-formed store file with the mapping it holds
(`StoreFile.valid`) is faithful. -/
theorem jsonToUserData_userDataToJson (d : UserData) :
    jsonToUserData (userDataToJson d) = some d := by
  suffices h : jsonFieldsToUserData (d.map fun p => (p.1, userRecToJson p.2)) = some d by
    simpa [jsonToUserData, userDataToJson] using h
  induction d with
  | nil => rfl
  | cons p t ih =>
    obtain ⟨u, r⟩ := p
    simp [jsonFieldsToUserData, jsonToUserRec_userRecToJson, ih]

/-! ## Claim theorems -/

set_option maxRecDepth 8192 in
/-- C1: `create_system_prompt` is a pure, deterministic function of the
snippet list — its output is exactly the fixed persona/policy template
with the snippet list interpolated — and for the empty snippet list the
composed prompt contains the fixed deflection string verbatim. -/
theorem create_system_prompt_pure_and_empty_deflects :
    (∀ chunk_texts : List String,
      create_system_prompt chunk_texts =
        promptPrefix ++ pyListRepr chunk_texts ++ promptSuffix) ∧
    (∃ a b : String, create_system_prompt [] = a ++ deflectionString ++ b) := by
  refine ⟨fun _ => rfl,
    ⟨promptPrefix ++ "[]" ++ ".\n        /\n        Para cualquier otra pregunta responde: \"",
     "", ?_⟩⟩
  rfl

/-- C5: `load_user_data` never fails: a missing file is created holding
an empty store and the empty mapping is returned; malformed contents are
discarded, the file rewritten as an empty store, and the empty mapping
returned; well-formed contents are returned as parsed.  A following
`save_user_data` always writes a well-formed JSON object, and the
serialization it writes parses back to the same mapping. -/
theorem load_user_data_never_fails :
    load_user_data .missing = ([], .valid []) ∧
    load_user_data .malformed = ([], .valid []) ∧
    (∀ d : UserData, load_user_data (.valid d) = (d, .valid d)) ∧
    (∀ d : UserData, (save_user_data d).isValidJson = true) ∧
    (∀ d : UserData, jsonToUserData (userDataToJson d) = some d) :=
  ⟨rfl, rfl, fun _ => rfl, fun _ => rfl, jsonToUserData_userDataToJson⟩

/-- C6: `register_user` rejects a blank username or password with the
invalid-input outcome leaving the store unchanged; rejects an
already-registered username with the already-exists outcome leaving the
store — hence the first-registered hash — unchanged; and on success
stores the salted hash of the password together with an empty
conversation mapping. -/
theorem register_user_spec (hashpw : String → String → String)
    (salt username password : String) (d : UserData) :
    (pyStrip username = "" ∨ pyStrip password = "" →
      register_user hashpw salt username password (.valid d) = (.invalidInput, .valid d)) ∧
    (pyStrip username ≠ "" → pyStrip password ≠ "" →
      ∀ r : UserRec, dictGet? username d = some r →
        register_user hashpw salt username password (.valid d) = (.alreadyExists, .valid d)) ∧
    (pyStrip username ≠ "" → pyStrip password ≠ "" → dictGet? username d = none →
      register_user hashpw salt username password (.valid d) =
        (.ok, .valid (dictSet username ⟨hashpw password salt, []⟩ d)) ∧
      dictGet? username (dictSet username ⟨hashpw password salt, []⟩ d) =
        some ⟨hashpw password salt, []⟩) := by
  refine ⟨?_, ?_, ?_⟩
  · intro h
    simp [register_user, ensure_user_data_file, load_user_data, h]
  · intro h1 h2 r hr
    simp [register_user, ensure_user_data_file, load_user_data, h1, h2, hr]
  · intro h1 h2 hn
    exact ⟨by simp [register_user, ensure_user_data_file, load_user_data, save_user_data,
                    h1, h2, hn],
           dictGet?_dictSet_self _ _ _⟩

/-- Witness for C6: a blank username is rejected, re-registering `alice`
yields the already-exists outcome with her stored hash intact, and
registering `bob` stores the salted hash with no conversations. -/
theorem register_user_spec_witness :
    register_user (fun p s => s ++ p) "S" " " "pw" (.valid []) = (.invalidInput, .valid []) ∧
    register_user (fun p s => s ++ p) "S" "alice" "pw"
        (.valid [("alice", ⟨"H", []⟩)]) = (.alreadyExists, .valid [("alice", ⟨"H", []⟩)]) ∧
    register_user (fun p s => s ++ p) "S" "bob" "pw" (.valid []) =
      (.ok, .valid [("bob", ⟨"Spw", []⟩)]) :=
  ⟨(register_user_spec (fun p s => s ++ p) "S" " " "pw" []).1 (Or.inl (by decide)),
   (register_user_spec (fun p s => s ++ p) "S" "alice" "pw" [("alice", ⟨"H", []⟩)]).2.1
     (by decide) (by decide) ⟨"H", []⟩ (by decide),
   ((register_user_spec (fun p s => s ++ p) "S" "bob" "pw" []).2.2
     (by decide) (by decide) (by decide)).1⟩

/-- C7: `check_login` succeeds iff the username is present in the store
and the supplied password verifies against the stored hash; a wrong
password for an existing user and any password for an absent user both
produce the same generic invalid-credentials outcome. -/
theorem check_login_spec (checkpw : String → String → Bool)
    (username password : String) (d : UserData) :
    ((check_login checkpw username password (.valid d)).1 = .success ↔
      ∃ r : UserRec, dictGet? username d = some r ∧ checkpw password r.password = true) ∧
    (dictGet? username d = none →
      (check_login checkpw username password (.valid d)).1 = .invalidCredentials) ∧
    (∀ r : UserRec, dictGet? username d = some r → checkpw password r.password = false →
      (check_login checkpw username password (.valid d)).1 = .invalidCredentials) := by
  refine ⟨?_, ?_, ?_⟩
  · cases hr : dictGet? username d with
    | none => simp [check_login, load_user_data, hr]
    | some r =>
      by_cases hc : checkpw password r.password
      · simp [check_login, load_user_data, hr, hc]
      · simp [check_login, load_user_data, hr, hc]
  · intro hn
    simp [check_login, load_user_data, hn]
  · intro r hr hc
    simp [check_login, load_user_data, hr, hc]

/-- Witness for C7: with equality as the verifier, `alice` logs in with
her stored password, is rejected with a wrong one, and an unknown
username is rejected the same way. -/
theorem check_login_spec_witness :
    (check_login (fun p h => p == h) "alice" "pw"
        (.valid [("alice", ⟨"pw", []⟩)])).1 = .success ∧
    (check_login (fun p h => p == h) "alice" "bad"
        (.valid [("alice", ⟨"pw", []⟩)])).1 = .invalidCredentials ∧
    (check_login (fun p h => p == h) "bob" "pw"
        (.valid [("alice", ⟨"pw", []⟩)])).1 = .invalidCredentials :=
  ⟨(check_login_spec (fun p h => p == h) "alice" "pw" [("alice", ⟨"pw", []⟩)]).1.mpr
     ⟨⟨"pw", []⟩, by decide, by decide⟩,
   (check_login_spec (fun p h => p == h) "alice" "bad" [("alice", ⟨"pw", []⟩)]).2.2
     ⟨"pw", []⟩ (by decide) (by decide),
   (check_login_spec (fun p h => p == h) "bob" "pw" [("alice", ⟨"pw", []⟩)]).2.1 (by decide)⟩

/-- C8: persistence round-trip.  For any registered user, take the
in-memory conversations `cs` (the state after any sequence of appends);
`save_conversation` followed by reloading the store yields a user record
whose conversations are exactly `cs` — in particular every conversation
holds exactly its messages in the original order.  Additionally the JSON
serialization written by the save parses back to the same mapping. -/
theorem conversations_round_trip (username : String) (d : UserData) (r : UserRec)
    (cs : Conversations) (hr : dictGet? username d = some r) :
    (∃ r' : UserRec,
      dictGet? username (load_user_data (save_conversation username cs (.valid d))).1 =
        some r' ∧
      r'.conversations = cs ∧
      ∀ (name : String) (msgs : List Message),
        dictGet? name cs = some msgs → dictGet? name r'.conversations = some msgs) ∧
    jsonToUserData (userDataToJson d) = some d := by
  refine ⟨⟨{ r with conversations := cs }, ?_, rfl, fun _ _ h => h⟩,
          jsonToUserData_userDataToJson d⟩
  simp [save_conversation, load_user_data, save_user_data, hr, dictGet?_dictSet_self]

/-- Witness for C8: two messages appended to `alice`'s conversation `c`
survive a save-and-reload in order. -/
theorem conversations_round_trip_witness :
    (∃ r' : UserRec,
      dictGet? "alice" (load_user_data (save_conversation "alice"
          [("c", [⟨"user", "hola"⟩, ⟨"assistant", "buenas"⟩])]
          (.valid [("alice", ⟨"H", [("c", [])]⟩)]))).1 = some r' ∧
      r'.conversations = [("c", [⟨"user", "hola"⟩, ⟨"assistant", "buenas"⟩])] ∧
      ∀ (name : String) (msgs : List Message),
        dictGet? name [("c", [⟨"user", "hola"⟩, ⟨"assistant", "buenas"⟩])] = some msgs →
        dictGet? name r'.conversations = some msgs) ∧
    jsonToUserData (userDataToJson [("alice", ⟨"H", [("c", [])]⟩)]) =
      some [("alice", ⟨"H", [("c", [])]⟩)] :=
  conversations_round_trip "alice" [("alice", ⟨"H", [("c", [])]⟩)] ⟨"H", [("c", [])]⟩
    [("c", [⟨"user", "hola"⟩, ⟨"assistant", "buenas"⟩])] (by decide)

/-- C9: when retrieval returns no snippets, the send path composes no
prompt, never calls the chat-completion client, and appends exactly the
fixed string "No relevant information found." as the assistant
message (after the user message it appended first). -/
theorem send_message_empty_retrieval (username query cur : String)
    (convs : Conversations) (file : StoreFile) (apiResponse : String)
    (h : List Message) (hcur : dictGet? cur convs = some h) (hq : pyStrip query ≠ "") :
    send_message username query cur convs file [] apiResponse =
      some ⟨dictSet cur
              (h ++ [⟨"user", query⟩, ⟨"assistant", "No relevant information found."⟩])
              convs,
            file, none, none⟩ := by
  simp [send_message, hcur, hq]

/-- Witness for C9: a concrete send with empty retrieval yields only the
fixed fallback message and touches neither the composer nor the API. -/
theorem send_message_empty_retrieval_witness :
    send_message "alice" "hola" "c" [("c", [])] (.valid []) [] "r" =
      some ⟨dictSet "c"
              ([] ++ [⟨"user", "hola"⟩, ⟨"assistant", "No relevant information found."⟩])
              [("c", [])],
            .valid [], none, none⟩ :=
  send_message_empty_retrieval "alice" "hola" "c" [("c", [])] (.valid []) "r" []
    (by decide) (by decide)

/-- C10: with a non-empty retrieval result, the message list transmitted
to the chat API ends with two identical consecutive copies of the user's
query: the send path appends the query to the history first, and
`generate_response` appends it again. -/
theorem send_message_duplicate_user_message (username query cur : String)
    (convs : Conversations) (file : StoreFile) (chunks : List String)
    (apiResponse : String) (h : List Message)
    (hcur : dictGet? cur convs = some h) (hq : pyStrip query ≠ "") (hch : chunks ≠ []) :
    ∃ o : ChatOutcome,
      send_message username query cur convs file chunks apiResponse = some o ∧
      o.apiMessagesSent = some (h ++ [⟨"user", query⟩, ⟨"user", query⟩]) := by
  have hne : chunks.isEmpty = false := by
    cases chunks with
    | nil => exact absurd rfl hch
    | cons a t => rfl
  refine ⟨⟨dictSet cur ((h ++ [⟨"user", query⟩]) ++ [⟨"assistant", apiResponse⟩]) convs,
           file, some (create_system_prompt chunks),
           some ((h ++ [⟨"user", query⟩]) ++ [⟨"user", query⟩])⟩, ?_, by simp⟩
  simp [send_message, hcur, hq, hne, generate_response]

/-- Witness for C10: a concrete send with one snippet transmits the
query twice in a row at the end of the message list. -/
theorem send_message_duplicate_user_message_witness :
    ∃ o : ChatOutcome,
      send_message "alice" "hola" "c" [("c", [⟨"user", "previo"⟩])] (.valid [])
          ["snippet"] "resp" = some o ∧
      o.apiMessagesSent =
        some ([⟨"user", "previo"⟩] ++ [⟨"user", "hola"⟩, ⟨"user", "hola"⟩]) :=
  send_message_duplicate_user_message "alice" "hola" "c" [("c", [⟨"user", "previo"⟩])]
    (.valid []) ["snippet"] "resp" [⟨"user", "previo"⟩] (by decide) (by decide) (by decide)

/-- C2 counterexample: a concrete send appends two messages to the
in-memory conversation while the store file on disk still holds the
pre-send (empty) conversation — no persistence call follows the appends,
so the persisted store does not reflect the in-memory state. -/
theorem send_message_no_save_counterexample :
    send_message "alice" "hola" "c" [("c", [])]
        (.valid [("alice", ⟨"H", [("c", [])]⟩)]) [] "r" =
      some ⟨[("c", [⟨"user", "hola"⟩, ⟨"assistant", "No relevant information found."⟩])],
            .valid [("alice", ⟨"H", [("c", [])]⟩)], none, none⟩ ∧
    (StoreFile.valid [("alice", ⟨"H", [("c", [])]⟩)]) ≠
      .valid [("alice", ⟨"H",
        [("c", [⟨"user", "hola"⟩, ⟨"assistant", "No relevant information found."⟩])]⟩)] :=
  ⟨by decide, by decide⟩

/-- C2 amended: the chat send path never makes a persistence call — the
store file after any run of the send path is exactly the file before it;
conversations are persisted only by the conversation-creation handler. -/
theorem send_message_never_persists (username query cur : String)
    (convs : Conversations) (file : StoreFile) (chunks : List String)
    (apiResponse : String) (o : ChatOutcome)
    (hrun : send_message username query cur convs file chunks apiResponse = some o) :
    o.file = file := by
  unfold send_message at hrun
  split at hrun
  · exact Option.noConfusion hrun
  · split at hrun
    · have h' := Option.some.inj hrun
      subst h'
      rfl
    · split at hrun
      · have h' := Option.some.inj hrun
        subst h'
        rfl
      · have h' := Option.some.inj hrun
        subst h'
        rfl

/-- Witness for the amended C2: the file of a concrete send outcome is
the input file. -/
theorem send_message_never_persists_witness :
    (ChatOutcome.mk
        [("c", [⟨"user", "hola"⟩, ⟨"assistant", "No relevant information found."⟩])]
        (.valid []) none none).file = .valid [] :=
  send_message_never_persists "alice" "hola" "c" [("c", [])] (.valid []) [] "r"
    ⟨[("c", [⟨"user", "hola"⟩, ⟨"assistant", "No relevant information found."⟩])],
     .valid [], none, none⟩ (by decide)

/-- C3 counterexample: creating a conversation whose name already exists
does not fail — the handler reports success and resets the existing
conversation to an empty message list, destroying its messages. -/
theorem createConversation_duplicate_counterexample :
    (createConversation "alice" "c" [("c", [⟨"user", "hola"⟩])] (some "c")
        (.valid [("alice", ⟨"H", [("c", [⟨"user", "hola"⟩])]⟩)])).result = .created ∧
    dictGet? "c" (createConversation "alice" "c" [("c", [⟨"user", "hola"⟩])] (some "c")
        (.valid [("alice", ⟨"H", [("c", [⟨"user", "hola"⟩])]⟩)])).conversations =
      some [] ∧
    ([] : List Message) ≠ [⟨"user", "hola"⟩] :=
  ⟨by decide, by decide, by decide⟩

/-- C3 amended: a blank name fails with the empty-name outcome and
mutates nothing; a non-blank name always succeeds — there is no
duplicate-name check — setting the (possibly pre-existing) conversation
to the empty message list, selecting it, and persisting. -/
theorem createConversation_spec (username name : String) (convs : Conversations)
    (cur : Option String) (file : StoreFile) :
    (pyStrip name = "" →
      createConversation username name convs cur file = ⟨.emptyName, convs, cur, file⟩) ∧
    (pyStrip name ≠ "" →
      createConversation username name convs cur file =
        ⟨.created, dictSet name [] convs, some name,
         save_conversation username (dictSet name [] convs) file⟩ ∧
      dictGet? name (dictSet name [] convs) = some []) := by
  constructor
  · intro hb
    simp [createConversation, hb]
  · intro hb
    exact ⟨by simp [createConversation, hb], dictGet?_dictSet_self _ _ _⟩

/-- Witness for the amended C3: a blank name changes nothing; reusing
the existing name `c` succeeds and resets it to the empty list. -/
theorem createConversation_spec_witness :
    createConversation "alice" " " [("c", [⟨"user", "hola"⟩])] (some "c") (.valid []) =
      (⟨.emptyName, [("c", [⟨"user", "hola"⟩])], some "c", .valid []⟩ : CreateOutcome) ∧
    (createConversation "alice" "c" [("c", [⟨"user", "hola"⟩])] (some "c") (.valid []) =
      (⟨.created, dictSet "c" ([] : List Message) [("c", [⟨"user", "hola"⟩])], some "c",
        save_conversation "alice"
          (dictSet "c" ([] : List Message) [("c", [⟨"user", "hola"⟩])])
          (.valid [])⟩ : CreateOutcome) ∧
     dictGet? "c" (dictSet "c" ([] : List Message) [("c", [⟨"user", "hola"⟩])]) =
       some []) :=
  ⟨(createConversation_spec "alice" " " [("c", [⟨"user", "hola"⟩])] (some "c")
      (.valid [])).1 (by decide),
   (createConversation_spec "alice" "c" [("c", [⟨"user", "hola"⟩])] (some "c")
      (.valid [])).2 (by decide)⟩

/-- C4 counterexample: on a concrete successful call, the passed-in
history after `generate_response` returns is the unchanged input — the
assistant's message has not been appended to it. -/
theorem generate_response_no_mutation_counterexample :
    (generate_response "sys" "hola" (some [⟨"user", "hola"⟩]) "resp").historyAfter =
      [⟨"user", "hola"⟩] ∧
    (generate_response "sys" "hola" (some [⟨"user", "hola"⟩]) "resp").historyAfter ≠
      [⟨"user", "hola"⟩] ++
        [⟨"assistant",
          (generate_response "sys" "hola" (some [⟨"user", "hola"⟩]) "resp").response⟩] :=
  ⟨by decide, by decide⟩

/-- C4 amended: `generate_response` leaves the passed-in history
unchanged and transmits the history plus the new user message; the
assistant's message is appended to the conversation by the calling send
path after `generate_response` returns. -/
theorem generate_response_caller_appends (system_prompt query : String)
    (h : List Message) (apiResponse : String) :
    (generate_response system_prompt query (some h) apiResponse).historyAfter = h ∧
    (generate_response system_prompt query (some h) apiResponse).messagesSent =
      h ++ [⟨"user", query⟩] ∧
    (∀ (username cur : String) (convs : Conversations) (file : StoreFile)
        (chunks : List String) (h₀ : List Message),
      dictGet? cur convs = some h₀ → pyStrip query ≠ "" → chunks ≠ [] →
      ∃ o : ChatOutcome,
        send_message username query cur convs file chunks apiResponse = some o ∧
        o.conversations =
          dictSet cur (h₀ ++ [⟨"user", query⟩, ⟨"assistant", apiResponse⟩]) convs) := by
  refine ⟨rfl, rfl, ?_⟩
  intro username cur convs file chunks h₀ hcur hq hch
  have hne : chunks.isEmpty = false := by
    cases chunks with
    | nil => exact absurd rfl hch
    | cons a t => rfl
  refine ⟨⟨dictSet cur ((h₀ ++ [⟨"user", query⟩]) ++ [⟨"assistant", apiResponse⟩]) convs,
           file, some (create_system_prompt chunks),
           some ((h₀ ++ [⟨"user", query⟩]) ++ [⟨"user", query⟩])⟩, ?_, by simp⟩
  simp [send_message, hcur, hq, hne, generate_response]

/-- Witness for the amended C4: concrete run in which the history handed
to `generate_response` survives unchanged and the caller's conversation
gains the user and assistant messages. -/
theorem generate_response_caller_appends_witness :
    (generate_response "sys" "hola" (some [⟨"user", "previo"⟩]) "resp").historyAfter =
      [⟨"user", "previo"⟩] ∧
    ∃ o : ChatOutcome,
      send_message "bob" "hola" "c" [("c", [⟨"user", "previo"⟩])] (.valid [])
          ["snippet"] "resp" = some o ∧
      o.conversations =
        dictSet "c" ([⟨"user", "previo"⟩] ++ [⟨"user", "hola"⟩, ⟨"assistant", "resp"⟩])
          [("c", [⟨"user", "previo"⟩])] :=
  ⟨(generate_response_caller_appends "sys" "hola" [⟨"user", "previo"⟩] "resp").1,
   (generate_response_caller_appends "sys" "hola" [⟨"user", "previo"⟩] "resp").2.2
     "bob" "c" [("c", [⟨"user", "previo"⟩])] (.valid []) ["snippet"] [⟨"user", "previo"⟩]
     (by decide) (by decide) (by decide)⟩
